import Mathlib

/-!
Verification development for the VisiTrack-AI scraper backend.

The definitions below are a shallow embedding of the Python sources under
`backend/`: the brand matcher, cookie filtering, rate limiter, proxy gate,
per-platform response-wait loops, response extraction fallbacks, and the
worker loop of `worker.py`.  Machine effects (Selenium calls, the database,
wall-clock time) are modelled as explicit inputs; time is discrete seconds.
-/

namespace VisiTrack

/-! ## Character classes and text normalization (base_scraper.py, brand detection) -/

/-- Python regex class w (word character), ASCII fragment: alphanumeric or underscore. -/
def isWordChar (c : Char) : Bool := c.isAlphanum || c = '_'

/-- Python regex class s (whitespace), ASCII fragment. -/
def isSpaceChar (c : Char) : Bool :=
  c = ' ' || c = '\t' || c = '\n' || c = '\r' || c = Char.ofNat 11 || c = Char.ofNat 12

/-- Lower-casing of a character list, modelling Python str.lower(). -/
def lowerL (l : List Char) : List Char := l.map Char.toLower

/-- Remove plain spaces, modelling Python str.replace(' ', ''). -/
def despace (l : List Char) : List Char := l.filter (fun c => c != ' ')

/-- Helper for collapsing whitespace runs; the flag records whether the previous
character was whitespace (already emitted as a single space). -/
def collapseSpacesAux : Bool → List Char → List Char
  | _, [] => []
  | prevSp, c :: rest =>
    if isSpaceChar c then
      if prevSp then collapseSpacesAux true rest
      else ' ' :: collapseSpacesAux true rest
    else c :: collapseSpacesAux false rest

/-- Text normalization in extract_brands: every character that is neither a word
character nor whitespace becomes a space, then every whitespace run becomes one space. -/
def normalizeText (l : List Char) : List Char :=
  collapseSpacesAux false (l.map (fun c => if isWordChar c || isSpaceChar c then c else ' '))

/-- Python str.split() on a character list: split on whitespace, dropping empty chunks. -/
def splitWs (l : List Char) : List (List Char) :=
  (l.splitOnP isSpaceChar).filter (fun p => !p.isEmpty)

/-- Insert a space between a lowercase letter followed by an uppercase letter,
modelling re.sub of the camel-case pattern in _is_brand_mentioned; the regex engine
resumes scanning after each two-character match. -/
def camelSplitAux : List Char → List Char
  | c1 :: c2 :: rest =>
    if c1.isLower && c2.isUpper then c1 :: ' ' :: c2 :: camelSplitAux rest
    else c1 :: camelSplitAux (c2 :: rest)
  | l => l

/-! ## Word-bounded regex search

The brand matcher only builds patterns of the shape b lit1 s* lit2 s* ... b
(escaped literal segments joined by optional whitespace, word boundaries at both
ends), so we embed exactly that fragment of the regex language. -/

/-- True when the character at position `i` is a word character (out of range counts
as non-word, as at a string edge). -/
def wordAt (t : List Char) (i : Nat) : Bool :=
  match t.get? i with
  | some c => isWordChar c
  | none => false

/-- Regex word boundary at position `i` of `t`: exactly one of the two neighbouring
positions holds a word character. -/
def boundaryAt (t : List Char) (i : Nat) : Bool :=
  (if i = 0 then false else wordAt t (i - 1)) != wordAt t i

/-- A literal segment matches at position `j` of `t` exactly. -/
def litAt (s t : List Char) (j : Nat) : Bool := decide (s <+: t.drop j)

/-- Position reached after the maximal whitespace run starting at `j` (greedy s*;
the following literal never starts with whitespace, so greedy matching is exact). -/
def skipSpaces (t : List Char) (j : Nat) : Nat :=
  j + ((t.drop j).takeWhile isSpaceChar).length

/-- Match literal segments joined by s* starting at position `j`; returns the end
position of the whole match. -/
def segsAt : List (List Char) → List Char → Nat → Option Nat
  | [], _, j => some j
  | [s], t, j => if litAt s t j then some (j + s.length) else none
  | s :: s2 :: rest, t, j =>
    if litAt s t j then segsAt (s2 :: rest) t (skipSpaces t (j + s.length)) else none

/-- The whole pattern (with word boundaries at both ends) matches at position `i`. -/
def hitAt (segs : List (List Char)) (t : List Char) (i : Nat) : Bool :=
  boundaryAt t i &&
    match segsAt segs t i with
    | some e => boundaryAt t e
    | none => false

/-- re.search of the word-bounded pattern anywhere in `t`. -/
def searchSegs (segs : List (List Char)) (t : List Char) : Bool :=
  (List.range (t.length + 1)).any (hitAt segs t)

/-- re.search of a single word-bounded literal. -/
def searchLit (s t : List Char) : Bool := searchSegs [s] t

/-! ## Brand variations and the matcher (base_scraper.py lines 581-697) -/

/-- The static alias table of _get_brand_variations. -/
def aliasTable : List (String × List String) := [
  ("salesforce", ["sfdc", "sales force", "salesforce.com"]),
  ("hubspot", ["hub spot", "hubspot crm"]),
  ("zoho crm", ["zoho", "zohocrm"]),
  ("pipedrive", ["pipe drive"]),
  ("freshsales", ["fresh sales", "freshworks crm"]),
  ("monday crm", ["monday.com crm"]),
  ("monday.com", ["monday", "mondaycom"]),
  ("sugarcrm", ["sugar crm", "sugar"]),
  ("jira", ["jira software", "atlassian jira"]),
  ("asana", ["asana.com"]),
  ("trello", ["trello.com"]),
  ("clickup", ["click up", "clickup.com"]),
  ("notion", ["notion.so"]),
  ("linear", ["linear.app"]),
  ("basecamp", ["base camp"]),
  ("smartsheet", ["smart sheet"]),
  ("wrike", ["wrike.com"]),
  ("copper", ["copper crm"]),
  ("close", ["close crm", "close.com"]),
  ("insightly", ["insightly crm"])
]

/-- The suffixes stripped by _get_brand_variations. -/
def suffixTable : List String := [" crm", " software", ".com", ".io", " app"]

/-- _get_brand_variations: alias-table entries for the lower-cased brand, followed by
the brand with each matching suffix stripped. -/
def get_brand_variations (brand : String) : List String :=
  let bl := String.mk (lowerL brand.toList)
  let fromAlias :=
    match aliasTable.find? (fun p => decide (p.1 = bl)) with
    | some p => p.2
    | none => []
  let fromSuffix := suffixTable.filterMap (fun suf =>
    if decide (suf.toList <:+ bl.toList) then
      some (String.mk (bl.toList.take (bl.toList.length - suf.toList.length)))
    else none)
  fromAlias ++ fromSuffix

/-- _is_brand_mentioned: the five matching strategies, a logical OR.
`textLower` is the lower-cased text, `textNormalized` its normalized copy. -/
def is_brand_mentioned (textLower textNormalized : List Char) (brand : String) : Bool :=
  -- Strategy 1: exact word-bounded match of the lower-cased brand
  searchLit (lowerL brand.toList) textLower ||
  -- Strategy 2: despaced brand (length > 3) against the despaced normalized text
  (decide ((despace (lowerL brand.toList)).length > 3) &&
    searchLit (despace (lowerL brand.toList)) (despace textNormalized)) ||
  -- Strategy 3: multi-word brand with flexible whitespace between the words
  (decide ((splitWs (lowerL brand.toList)).length > 1) &&
    searchSegs (splitWs (lowerL brand.toList)) textLower) ||
  -- Strategy 4: camel-case split applied to the original brand, spaced and despaced
  (decide (lowerL (camelSplitAux brand.toList) ≠ lowerL brand.toList) &&
    (searchLit (lowerL (camelSplitAux brand.toList)) textLower ||
     searchLit (despace (lowerL (camelSplitAux brand.toList))) textNormalized)) ||
  -- Strategy 5: aliases and suffix-stripped variations, each word-bounded
  (get_brand_variations brand).any (fun v => searchLit (lowerL v.toList) textLower)

/-- extract_brands: empty text or empty candidate list give []; otherwise the
candidates judged mentioned, as a duplicate-free list (Python collects them in a set). -/
def extract_brands (text : String) (brands : List String) : List String :=
  if text = "" ∨ brands = [] then []
  else
    (brands.filter (fun b =>
      is_brand_mentioned (lowerL text.toList) (normalizeText (lowerL text.toList)) b)).dedup

/-! ## Cookie loading (base_scraper.py, _load_and_apply_cookies, lines 286-325) -/

/-- A stored cookie record; `domain` and `sameSite` keys may be absent, `secure`
absent or False is modelled as `false` (Python truthiness of cookie.get('secure')). -/
structure Cookie where
  name : String
  domain : Option String
  sameSite : Option String
  secure : Bool
deriving DecidableEq

/-- Python substring test `needle in hay`, on character lists. -/
def strContains (hay needle : List Char) : Bool := decide (needle <:+: hay)

/-- Strip one leading dot from a cookie domain, as the source does. -/
def stripLeadingDot (d : String) : List Char :=
  match d.toList with
  | '.' :: rest => rest
  | l => l

/-- The domain check of _load_and_apply_cookies: a cookie with a domain key is kept
when the current domain occurs in the (dot-stripped) cookie domain or vice versa;
a cookie without a domain key is always kept. -/
def cookieDomainOk (currentDomain : String) (c : Cookie) : Bool :=
  match c.domain with
  | none => true
  | some d =>
    strContains (stripLeadingDot d) currentDomain.toList ||
      strContains currentDomain.toList (stripLeadingDot d)

/-- sameSite normalization: a cookie with sameSite 'None' and no secure flag has its
sameSite attribute removed before being added. -/
def normalizeSameSite (c : Cookie) : Cookie :=
  if c.sameSite = some "None" ∧ c.secure = false then
    { c with sameSite := none }
  else c

/-- Per-cookie step of the loading loop: the cookie is either skipped (domain
mismatch) or normalized and added; add_cookie is modelled as succeeding. -/
def processCookie (currentDomain : String) (c : Cookie) : Option Cookie :=
  if cookieDomainOk currentDomain c then some (normalizeSameSite c) else none

/-- _load_and_apply_cookies over a stored cookie list: the cookies actually added to
the browser, in order; each cookie is handled individually. -/
def apply_cookies (currentDomain : String) (cookies : List Cookie) : List Cookie :=
  cookies.filterMap (processCookie currentDomain)

/-- Modelled from the spec: the spec's retention criterion, "stored domain matches
(or is a parent/child of) the current page domain" — equality or ancestry on
dot-separated domain labels.  Used only to compare the spec's wording with the
source's substring criterion. -/
def specDomainMatches (cookieDomain pageDomain : String) : Bool :=
  decide (cookieDomain = pageDomain) ||
  decide (('.' :: pageDomain.toList) <:+ cookieDomain.toList) ||
  decide (('.' :: cookieDomain.toList) <:+ pageDomain.toList)

/-! ## Rate limiter (base_scraper.py, enforce_rate_limit, lines 541-553) -/

/-- Default RATE_LIMIT_DELAY from config.py (seconds). -/
def RATE_LIMIT_DELAY : Rat := 180

/-- enforce_rate_limit: `last` is the stored last_request_time (0 means no prior
request), `now` the current clock.  Returns (time slept, new last_request_time);
sleeping is exact, so after a sleep of w the clock reads now + w. -/
def enforce_rate_limit (delay last now : Rat) : Rat × Rat :=
  if last = 0 then (0, now)
  else if now - last < delay then
    (delay - (now - last), now + (delay - (now - last)))
  else (0, now)

/-! ## Proxy gate and initialization (base_scraper.py, initialize and _setup_proxy) -/

/-- The configuration fields consulted by _setup_proxy. -/
structure ProxySettings where
  use_proxy : Bool
  oxylabs_username : String
  oxylabs_password : String
deriving DecidableEq

/-- _setup_proxy: when proxying is mandated, missing credentials (Python falsiness of
the empty string) or a failed connectivity test (`proxyTestOk` abstracts
proxy_manager.test_proxy(), an outbound HTTP request) fail the gate. -/
def setup_proxy (s : ProxySettings) (proxyTestOk : Bool) : Bool :=
  if s.use_proxy then
    if s.oxylabs_username = "" ∨ s.oxylabs_password = "" then false
    else if proxyTestOk = false then false
    else true
  else true

/-- Externally observable actions of initialize, in program order. -/
inductive InitEvent
  | launchBrowser
  | startScreenshots
  | navigate
  | applyCookiesToPage
  | checkLogin
  | manualLogin
deriving DecidableEq

/-- The environment of one initialize call: configuration plus the outcome of each
external interaction. -/
structure InitScenario where
  proxySettings : ProxySettings
  proxyTestOk : Bool
  launchRaises : Bool
  loggedIn : Bool
  loggedInAfterManual : Bool
  load_cookies : Bool
deriving DecidableEq

/-- initialize: the proxy gate runs first and returns False with no browser
interaction on failure; otherwise the browser is launched (a launch exception is
caught by the outer handler and yields False), the page is navigated, cookies
applied when requested, and the login check (with the manual-login fallback when
cookies were loaded) decides the result. -/
def base_scraper_init (s : InitScenario) : Bool × List InitEvent :=
  if setup_proxy s.proxySettings s.proxyTestOk = false then (false, [])
  else if s.launchRaises then (false, [InitEvent.launchBrowser])
  else
    let pre := [InitEvent.launchBrowser, InitEvent.startScreenshots, InitEvent.navigate] ++
      (if s.load_cookies then [InitEvent.applyCookiesToPage] else [])
    if s.loggedIn = false ∧ s.load_cookies = true then
      (s.loggedInAfterManual,
        pre ++ [InitEvent.checkLogin, InitEvent.manualLogin, InitEvent.checkLogin])
    else (true, pre ++ [InitEvent.checkLogin])

/-! ## Response-completion wait loops (platform adapters)

Each `_wait_for_response` polls a platform condition inside
`while (time.time() - start_time) < 120`, sleeping between polls.  Time is
modelled in whole seconds; `elapsed` is the clock at the top of each iteration.
Each iteration advances the clock by at least one second, so a fuel of 120
iterations is never exhausted before the guard fails; the fuel-0 branch returns
exactly what the failed guard would. -/

/-- chatgpt_scraper.py: completion is the absence of the Stop-generating button;
each busy poll sleeps 1s. -/
def chatgpt_wait_aux (stopButtonPresent : Nat → Bool) : Nat → Nat → Nat
  | 0, elapsed => elapsed
  | fuel + 1, elapsed =>
    if elapsed < 120 then
      if stopButtonPresent elapsed then chatgpt_wait_aux stopButtonPresent fuel (elapsed + 1)
      else elapsed
    else elapsed

/-- The elapsed time at which the ChatGPT wait loop returns. -/
def chatgpt_wait_for_response (stopButtonPresent : Nat → Bool) : Nat :=
  chatgpt_wait_aux stopButtonPresent 120 0

/-- What one Gemini poll observes. -/
inductive GeminiPoll
  | noContainers
  | stillBusy
  | done
  | raised
deriving DecidableEq

/-- gemini_scraper.py: completion is a response container whose busy attribute is
false; every other observation (no container, still busy, an exception) sleeps 1s. -/
def gemini_wait_aux (poll : Nat → GeminiPoll) : Nat → Nat → Nat
  | 0, elapsed => elapsed
  | fuel + 1, elapsed =>
    if elapsed < 120 then
      match poll elapsed with
      | GeminiPoll.done => elapsed
      | _ => gemini_wait_aux poll fuel (elapsed + 1)
    else elapsed

/-- The elapsed time at which the Gemini wait loop returns. -/
def gemini_wait_for_response (poll : Nat → GeminiPoll) : Nat :=
  gemini_wait_aux poll 120 0

/-- What one Perplexity poll observes. -/
inductive PerplexityPoll
  | noContainers
  | shortContent
  | done
  | raised
deriving DecidableEq

/-- perplexity_scraper.py: completion is a container with more than trivial text;
a container with short content sleeps 2s, the other observations sleep 1s. -/
def perplexity_wait_aux (poll : Nat → PerplexityPoll) : Nat → Nat → Nat
  | 0, elapsed => elapsed
  | fuel + 1, elapsed =>
    if elapsed < 120 then
      match poll elapsed with
      | PerplexityPoll.done => elapsed
      | PerplexityPoll.shortContent => perplexity_wait_aux poll fuel (elapsed + 2)
      | _ => perplexity_wait_aux poll fuel (elapsed + 1)
    else elapsed

/-- The elapsed time at which the Perplexity wait loop returns. -/
def perplexity_wait_for_response (poll : Nat → PerplexityPoll) : Nat :=
  perplexity_wait_aux poll 120 0

/-! ## Response extraction fallbacks (_extract_response) -/

/-- Python str.strip(): remove leading and trailing whitespace; a string is blank
exactly when its strip is empty. -/
def pyStrip (l : List Char) : List Char :=
  ((l.dropWhile isSpaceChar).reverse.dropWhile isSpaceChar).reverse

/-- chatgpt_scraper.py _extract_response: `primaryText` is what the in-page script
returned; `fallbackTexts` is none when the selenium fallback raises, otherwise the
.text of each assistant-message element found.  When the primary result is blank the
fallback takes the last element's text; with no elements or an exception the
sentinel is returned. -/
def chatgpt_extract_response (primaryText : String) (fallbackTexts : Option (List String)) :
    String :=
  if pyStrip primaryText.toList = [] then
    match fallbackTexts with
    | none => "No response extracted"
    | some msgs =>
      match msgs.getLast? with
      | some t => t
      | none => "No response extracted"
  else primaryText

/-- perplexity_scraper.py _extract_response: like ChatGPT's, but the fallback joins
the non-blank paragraph texts and replaces a joined result whose stripped length is
under 20 with the short-response sentinel. -/
def perplexity_extract_response (primaryText : String) (fallbackTexts : Option (List String)) :
    String :=
  if pyStrip primaryText.toList = [] then
    match fallbackTexts with
    | none => "No response extracted"
    | some els =>
      if els.isEmpty then "No response extracted"
      else
        if (pyStrip (String.intercalate "\n"
            (els.filter (fun t => decide (pyStrip t.toList ≠ [])))).toList).length < 20 then
          "No substantive response extracted"
        else String.intercalate "\n" (els.filter (fun t => decide (pyStrip t.toList ≠ [])))
  else primaryText

/-- The tail of BaseScraper.query after the message is sent: _wait_for_response runs,
then _extract_response runs unconditionally — there is no timeout check between the
two.  Returns (elapsed wait, extracted text) for the ChatGPT adapter. -/
def chatgpt_query_tail (stopButtonPresent : Nat → Bool) (primaryText : String)
    (fallbackTexts : Option (List String)) : Nat × String :=
  (chatgpt_wait_for_response stopButtonPresent,
    chatgpt_extract_response primaryText fallbackTexts)

/-- The same query tail for the Perplexity adapter. -/
def perplexity_query_tail (poll : Nat → PerplexityPoll) (primaryText : String)
    (fallbackTexts : Option (List String)) : Nat × String :=
  (perplexity_wait_for_response poll,
    perplexity_extract_response primaryText fallbackTexts)

/-! ## Session teardown (base_scraper.py, cleanup and query_with_fresh_browser) -/

/-- The timeout of the join in _stop_screenshot_capture: _screenshot_thread.join(timeout=2). -/
def JOIN_TIMEOUT : Nat := 2

/-- The sleep between screenshots of the capture thread: initialize starts it with
_start_screenshot_capture(interval=5), and the thread checks the stop flag only
between iterations. -/
def SCREENSHOT_INTERVAL : Nat := 5

/-- The actions of BaseScraper.cleanup, in program order.  `joinAttempt exited`
records the bounded join(timeout=2): `exited` tells whether the capture thread had
terminated when the join call returned — false when the timeout expired first. -/
inductive CleanupEvent
  | setStopFlag
  | joinAttempt (exited : Bool)
  | quitBrowser
deriving DecidableEq

/-- cleanup(): _stop_screenshot_capture first — set the stop flag, then, when a
capture thread exists, join it with a 2-second timeout — then quit the driver when
one exists.  `thread` is none when no capture thread runs (non-headless mode);
`some r` means the thread next checks the stop flag in `r` seconds (it sleeps
SCREENSHOT_INTERVAL = 5 seconds per iteration, so r can be up to 5).  The join
returns with the thread exited only when r is within the timeout; otherwise the
timeout expires and the quit proceeds with the thread still alive. -/
def cleanupEvents (thread : Option Nat) (hasDriver : Bool) : List CleanupEvent :=
  [CleanupEvent.setStopFlag] ++
  (match thread with
   | none => []
   | some r => [CleanupEvent.joinAttempt (decide (r ≤ JOIN_TIMEOUT))]) ++
  (if hasDriver then [CleanupEvent.quitBrowser] else [])

/-- How one query_with_fresh_browser call ends. -/
inductive SessionExit
  | ok (result : String)
  | raised (msg : String)
deriving DecidableEq

/-- query_with_fresh_browser: initialize, raising RuntimeError on failure; then
query, whose result is returned or whose exception propagates; the finally block
runs cleanup() on every one of those exits.  `queryRes` abstracts the query call;
the returned list is the cleanup actions performed before the call ends. -/
def query_with_fresh_browser (initOk : Bool) (queryRes : Except String String)
    (thread : Option Nat) (hasDriver : Bool) : SessionExit × List CleanupEvent :=
  if initOk then
    match queryRes with
    | Except.ok r => (SessionExit.ok r, cleanupEvents thread hasDriver)
    | Except.error e => (SessionExit.raised e, cleanupEvents thread hasDriver)
  else (SessionExit.raised "Failed to initialize browser", cleanupEvents thread hasDriver)

/-! ## Worker loop (worker.py, ScraperWorker) -/

/-- How processing one prompt can go, as distinguished by process_prompt:
`success` is the full happy path; `earlyFail` covers the guarded early returns
(no brands for the category, no response record created, unsupported ai_source),
which return False without touching the error counter; `raiseExc` is an exception
inside the try block, caught at the except handler. -/
inductive PromptOutcome
  | success
  | earlyFail
  | raiseExc
deriving DecidableEq

/-- The per-platform in-memory worker counters. -/
structure WorkerState where
  prompts_completed : Nat
  errors : Nat
  is_running : Bool
deriving DecidableEq

/-- process_prompt: returns the updated counters and the boolean result.  A success
increments prompts_completed and returns True; an early failure returns False; an
exception increments errors exactly once and returns False — the exception never
propagates to the caller. -/
def process_prompt (st : WorkerState) (o : PromptOutcome) : WorkerState × Bool :=
  match o with
  | PromptOutcome.success =>
    ({ st with prompts_completed := st.prompts_completed + 1 }, true)
  | PromptOutcome.earlyFail => (st, false)
  | PromptOutcome.raiseExc => ({ st with errors := st.errors + 1 }, false)

/-- The for-loop over one batch of pending prompts in ScraperWorker.run: before each
item the stop flag is checked; each item goes through process_prompt and the loop
continues regardless of the boolean result.  Returns the final state and the number
of items attempted. -/
def process_batch (st : WorkerState) (batch : List PromptOutcome) : WorkerState × Nat :=
  match batch with
  | [] => (st, 0)
  | o :: rest =>
    if st.is_running = false then (st, 0)
    else
      ((process_batch (process_prompt st o).1 rest).1,
        (process_batch (process_prompt st o).1 rest).2 + 1)

/-- Python truthiness of the max_iterations argument: None and 0 are falsy. -/
def maxIterTruthy : Option Nat → Bool
  | none => false
  | some n => decide (n ≠ 0)

/-- The iteration structure of ScraperWorker.run, absent an external stop:
`sched it` tells whether iteration `it` finds a non-empty batch of pending prompts.
An empty batch sleeps and continues — skipping the max_iterations check — while a
non-empty batch is processed and then `if max_iterations and iteration >=
max_iterations: break` runs.  Returns some totalIterations when the loop breaks via
that check within `fuel` iterations, none when it is still running. -/
def run_iterations (sched : Nat → Bool) (maxIter : Option Nat) : Nat → Nat → Option Nat
  | 0, _ => none
  | fuel + 1, iteration =>
    if sched (iteration + 1) then
      if maxIterTruthy maxIter && decide (iteration + 1 ≥ maxIter.getD 0) then
        some (iteration + 1)
      else run_iterations sched maxIter fuel (iteration + 1)
    else run_iterations sched maxIter fuel (iteration + 1)

/-! ## Theorems -/

/-- A matched literal segment occurs as an infix of the searched text. -/
theorem litAt_occurs {s t : List Char} {j : Nat} (h : litAt s t j = true) : s <:+: t := by
  have hp : s <+: t.drop j := of_decide_eq_true h
  obtain ⟨u, hu⟩ := hp
  refine ⟨t.take j, u, ?_⟩
  rw [List.append_assoc, hu, List.take_append_drop]

/-- A successful multi-segment match begins with a successful head-literal match. -/
theorem segsAt_lit {s : List Char} {rest : List (List Char)} {t : List Char} {j e : Nat}
    (h : segsAt (s :: rest) t j = some e) : litAt s t j = true := by
  cases rest with
  | nil =>
    by_cases hl : litAt s t j
    · exact hl
    · simp [segsAt, hl] at h
  | cons s2 r2 =>
    by_cases hl : litAt s t j
    · exact hl
    · simp [segsAt, hl] at h

/-- A successful word-bounded search implies the head segment is an infix of the text. -/
theorem searchSegs_occurs {s : List Char} {rest : List (List Char)} {t : List Char}
    (h : searchSegs (s :: rest) t = true) : s <:+: t := by
  simp only [searchSegs, List.any_eq_true] at h
  obtain ⟨i, _, hhit⟩ := h
  simp only [hitAt, Bool.and_eq_true] at hhit
  obtain ⟨_, hm⟩ := hhit
  cases hsa : segsAt (s :: rest) t i with
  | none => rw [hsa] at hm; exact absurd hm (by simp)
  | some e => exact litAt_occurs (segsAt_lit hsa)

/-- Specialization of the search lemma to single-literal patterns. -/
theorem searchLit_occurs {s t : List Char} (h : searchLit s t = true) : s <:+: t :=
  @searchSegs_occurs s [] t h

/-- Absence of the brand from the text, in every variant form the matcher tries:
each conjunct rules out the corresponding strategy of is_brand_mentioned. -/
def brandAbsent (text brand : String) : Prop :=
  ¬ (lowerL brand.toList <:+: lowerL text.toList) ∧
  ¬ (despace (lowerL brand.toList) <:+: despace (normalizeText (lowerL text.toList))) ∧
  (∀ p ∈ splitWs (lowerL brand.toList), ¬ (p <:+: lowerL text.toList)) ∧
  ¬ (lowerL (camelSplitAux brand.toList) <:+: lowerL text.toList) ∧
  ¬ (despace (lowerL (camelSplitAux brand.toList)) <:+: normalizeText (lowerL text.toList)) ∧
  ∀ v ∈ get_brand_variations brand, ¬ (lowerL v.toList <:+: lowerL text.toList)

instance (text brand : String) : Decidable (brandAbsent text brand) := by
  unfold brandAbsent
  infer_instance

/-- C8 counterexample: the text "we use sfdc daily" contains no candidate brand
name — "salesforce" does not occur in it, case-insensitively — yet extract_brands
reports Salesforce via the alias table, so the claimed property is false. -/
theorem extract_brands_alias_counterexample :
    extract_brands "we use sfdc daily" ["Salesforce"] = ["Salesforce"] ∧
    ¬ (lowerL "Salesforce".toList <:+: lowerL "we use sfdc daily".toList) := by
  constructor
  · decide
  · decide

/-- C8 (amended): extract_brands returns the empty result whenever the text
contains no candidate brand name in any of the matcher's variant forms — neither
the name itself, nor its despaced, camel-split, alias, or suffix-stripped
variations, nor any individual word of a multi-word name. -/
theorem extract_brands_absent_empty (text : String) (brands : List String)
    (h : ∀ b ∈ brands, brandAbsent text b) :
    extract_brands text brands = [] := by
  unfold extract_brands
  by_cases hc : text = "" ∨ brands = []
  · simp [hc]
  · rw [if_neg hc]
    have hfil : brands.filter (fun b =>
        is_brand_mentioned (lowerL text.toList) (normalizeText (lowerL text.toList)) b) = [] := by
      rw [List.filter_eq_nil_iff]
      intro b hb hm
      obtain ⟨h1, h2, h3, h4, h5, h6⟩ := h b hb
      simp only [is_brand_mentioned, Bool.or_eq_true, Bool.and_eq_true,
        decide_eq_true_eq, List.any_eq_true] at hm
      rcases hm with ((((hS1 | ⟨_, hS2⟩) | ⟨hlen, hS3⟩) | ⟨_, hS4 | hS4⟩) | ⟨v, hv, hS5⟩)
      · exact h1 (searchLit_occurs hS1)
      · exact h2 (searchLit_occurs hS2)
      · cases hp : splitWs (lowerL b.toList) with
        | nil => rw [hp] at hlen; simp at hlen
        | cons p ps =>
          rw [hp] at hS3
          exact h3 p (hp ▸ List.mem_cons_self p ps) (searchSegs_occurs hS3)
      · exact h4 (searchLit_occurs hS4)
      · exact h5 (searchLit_occurs hS4)
      · exact h6 v hv (searchLit_occurs hS5)
    rw [hfil]
    rfl

/-- C8 witness: a candidate absent from the text in every variant form, and the
empty extraction result. -/
theorem extract_brands_absent_witness :
    (∀ b ∈ ["Salesforce"], brandAbsent "hello world" b) ∧
    extract_brands "hello world" ["Salesforce"] = [] :=
  ⟨by decide, extract_brands_absent_empty "hello world" ["Salesforce"] (by decide)⟩

/-- C10: the list returned by extract_brands has no duplicate entries and every
element of it is an element of the input candidate list — the output is a
duplicate-free subset of the candidates, never an alias or variation string. -/
theorem extract_brands_nodup_subset (text : String) (brands : List String) :
    (extract_brands text brands).Nodup ∧ extract_brands text brands ⊆ brands := by
  unfold extract_brands
  by_cases hc : text = "" ∨ brands = []
  · simp [hc]
  · rw [if_neg hc]
    constructor
    · exact List.nodup_dedup _
    · intro x hx
      exact (List.mem_filter.mp (List.mem_dedup.mp hx)).1

/-- C10 witness: the property at a concrete text and candidate list. -/
theorem extract_brands_nodup_subset_witness :
    (extract_brands "I love HubSpot" ["HubSpot", "Zoho CRM"]).Nodup ∧
    extract_brands "I love HubSpot" ["HubSpot", "Zoho CRM"] ⊆ ["HubSpot", "Zoho CRM"] :=
  extract_brands_nodup_subset "I love HubSpot" ["HubSpot", "Zoho CRM"]

/-- C6 counterexample: a cookie whose stored domain ("notchatgpt.com") neither
equals nor is a parent/child of the page domain ("chatgpt.com") is nevertheless
retained, because the source's criterion is two-way substring containment — so the
claim that every such cookie is dropped is false. -/
theorem cookie_domain_counterexample :
    apply_cookies "chatgpt.com" [⟨"sess", some "notchatgpt.com", none, true⟩] =
      [⟨"sess", some "notchatgpt.com", none, true⟩] ∧
    specDomainMatches "notchatgpt.com" "chatgpt.com" = false := by
  constructor
  · decide
  · decide

/-- C6 (amended): _load_and_apply_cookies retains exactly the cookies whose
dot-stripped stored domain contains the current page domain as a substring or is
contained in it (cookies without a domain key always pass); each failing cookie is
dropped individually without aborting the rest; a sameSite='None' cookie without
the secure flag has its sameSite attribute removed rather than being rejected, and
every other retained cookie is kept unchanged. -/
theorem apply_cookies_spec (cur : String) (cs : List Cookie) (c : Cookie) :
    apply_cookies cur cs = (cs.filter (cookieDomainOk cur)).map normalizeSameSite ∧
    (cookieDomainOk cur c = false → apply_cookies cur (c :: cs) = apply_cookies cur cs) ∧
    (c.sameSite = some "None" → c.secure = false →
      normalizeSameSite c = { c with sameSite := none }) ∧
    (¬ (c.sameSite = some "None" ∧ c.secure = false) → normalizeSameSite c = c) := by
  have hchar : ∀ l : List Cookie,
      apply_cookies cur l = (l.filter (cookieDomainOk cur)).map normalizeSameSite := by
    intro l
    induction l with
    | nil => rfl
    | cons d rest ih =>
      by_cases hd : cookieDomainOk cur d
      · simp [apply_cookies, List.filterMap_cons, processCookie, hd, List.filter_cons,
          ih.symm]
      · simp [apply_cookies, List.filterMap_cons, processCookie, hd, List.filter_cons,
          ih.symm]
  refine ⟨hchar cs, ?_, ?_, ?_⟩
  · intro hc
    simp [apply_cookies, List.filterMap_cons, processCookie, hc]
  · intro h1 h2
    simp [normalizeSameSite, h1, h2]
  · intro h12
    simp [normalizeSameSite, h12]

/-- C6 witness: a mismatching cookie is dropped while the rest of the list is still
applied, and a sameSite='None' cookie without secure is normalized. -/
theorem apply_cookies_spec_witness :
    cookieDomainOk "chatgpt.com" ⟨"drop", some "gemini.google.com", some "None", false⟩ = false ∧
    apply_cookies "chatgpt.com"
        (⟨"drop", some "gemini.google.com", some "None", false⟩ ::
          [⟨"keep", some ".chatgpt.com", some "None", false⟩]) =
      apply_cookies "chatgpt.com" [⟨"keep", some ".chatgpt.com", some "None", false⟩] ∧
    normalizeSameSite ⟨"drop", some "gemini.google.com", some "None", false⟩ =
      ⟨"drop", some "gemini.google.com", none, false⟩ :=
  ⟨by decide,
   (apply_cookies_spec "chatgpt.com" [⟨"keep", some ".chatgpt.com", some "None", false⟩]
      ⟨"drop", some "gemini.google.com", some "None", false⟩).2.1 (by decide),
   (apply_cookies_spec "chatgpt.com" [⟨"keep", some ".chatgpt.com", some "None", false⟩]
      ⟨"drop", some "gemini.google.com", some "None", false⟩).2.2.1 rfl rfl⟩

/-- C5: enforce_rate_limit — a first-ever call (sentinel last_request_time 0)
proceeds with no wait and records the current time; a субsequent call under the
minimum spacing sleeps exactly the remainder, after which the recorded start time
sits exactly `delay` after the previous one; a call at or beyond the spacing does
not wait and records the current time; and the configured default is 180 seconds. -/
theorem enforce_rate_limit_spec (delay last now : Rat) :
    enforce_rate_limit delay 0 now = (0, now) ∧
    (last ≠ 0 → now - last < delay →
      (enforce_rate_limit delay last now).1 = delay - (now - last) ∧
      (enforce_rate_limit delay last now).2 - last = delay ∧
      (enforce_rate_limit delay last now).2 = now + (enforce_rate_limit delay last now).1) ∧
    (last ≠ 0 → delay ≤ now - last → enforce_rate_limit delay last now = (0, now)) ∧
    RATE_LIMIT_DELAY = 180 := by
  refine ⟨by simp [enforce_rate_limit], ?_, ?_, rfl⟩
  · intro h1 h2
    unfold enforce_rate_limit
    rw [if_neg h1, if_pos h2]
    refine ⟨rfl, ?_, rfl⟩
    show now + (delay - (now - last)) - last = delay
    ring
  · intro h1 h2
    have h3 : ¬ (now - last < delay) := not_lt.mpr h2
    simp [enforce_rate_limit, h1, h3]

/-- C5 witness: the three behaviours at concrete clock values. -/
theorem enforce_rate_limit_spec_witness :
    ((10 : Rat) ≠ 0 ∧ (100 : Rat) - 10 < 180 ∧ (180 : Rat) ≤ 300 - 10) ∧
    enforce_rate_limit 180 0 55 = (0, 55) ∧
    (enforce_rate_limit 180 10 100).1 = 180 - ((100 : Rat) - 10) ∧
    enforce_rate_limit 180 10 300 = (0, 300) :=
  ⟨⟨by norm_num, by norm_num, by norm_num⟩,
   (enforce_rate_limit_spec 180 0 55).1,
   ((enforce_rate_limit_spec 180 10 100).2.1 (by norm_num) (by norm_num)).1,
   (enforce_rate_limit_spec 180 10 300).2.2.1 (by norm_num) (by norm_num)⟩

/-- C4: whenever proxying is mandated (USE_PROXY true) and the credentials are
missing or the connectivity test fails, initialization returns failure and no
browser launch is ever attempted. -/
theorem init_fails_fast_without_browser (s : InitScenario)
    (hproxy : s.proxySettings.use_proxy = true)
    (hfail : s.proxySettings.oxylabs_username = "" ∨ s.proxySettings.oxylabs_password = "" ∨
      s.proxyTestOk = false) :
    (base_scraper_init s).1 = false ∧ InitEvent.launchBrowser ∉ (base_scraper_init s).2 := by
  have hsp : setup_proxy s.proxySettings s.proxyTestOk = false := by
    rcases hfail with h | h | h <;> simp [setup_proxy, hproxy, h, ite_self]
  simp [base_scraper_init, hsp]

/-- C4 witness: missing username with proxying mandated — initialization fails with
no launch event. -/
theorem init_fails_fast_witness :
    (⟨⟨true, "", "pw"⟩, true, false, true, false, true⟩ : InitScenario).proxySettings.use_proxy
        = true ∧
    (base_scraper_init ⟨⟨true, "", "pw"⟩, true, false, true, false, true⟩).1 = false ∧
    InitEvent.launchBrowser ∉
      (base_scraper_init ⟨⟨true, "", "pw"⟩, true, false, true, false, true⟩).2 :=
  ⟨rfl,
   (init_fails_fast_without_browser ⟨⟨true, "", "pw"⟩, true, false, true, false, true⟩
      rfl (Or.inl rfl)).1,
   (init_fails_fast_without_browser ⟨⟨true, "", "pw"⟩, true, false, true, false, true⟩
      rfl (Or.inl rfl)).2⟩

/-- The ChatGPT wait loop never returns an elapsed time past the ceiling. -/
theorem chatgpt_wait_aux_le (p : Nat → Bool) :
    ∀ fuel e, e ≤ 120 → chatgpt_wait_aux p fuel e ≤ 120 := by
  intro fuel
  induction fuel with
  | zero => intro e he; simpa [chatgpt_wait_aux] using he
  | succ fuel ih =>
    intro e he
    rw [chatgpt_wait_aux]
    by_cases h : e < 120
    · rw [if_pos h]
      by_cases hp : p e = true
      · rw [if_pos hp]; exact ih (e + 1) (by omega)
      · rw [if_neg hp]; exact he
    · rw [if_neg h]; exact he

/-- The Gemini wait loop never returns an elapsed time past the ceiling. -/
theorem gemini_wait_aux_le (poll : Nat → GeminiPoll) :
    ∀ fuel e, e ≤ 120 → gemini_wait_aux poll fuel e ≤ 120 := by
  intro fuel
  induction fuel with
  | zero => intro e he; simpa [gemini_wait_aux] using he
  | succ fuel ih =>
    intro e he
    rw [gemini_wait_aux]
    by_cases h : e < 120
    · rw [if_pos h]
      cases poll e with
      | done => exact he
      | noContainers => exact ih (e + 1) (by omega)
      | stillBusy => exact ih (e + 1) (by omega)
      | raised => exact ih (e + 1) (by omega)
    · rw [if_neg h]; exact he

/-- The Perplexity wait loop returns at most one 2-second poll past the ceiling. -/
theorem perplexity_wait_aux_le (poll : Nat → PerplexityPoll) :
    ∀ fuel e, e ≤ 121 → perplexity_wait_aux poll fuel e ≤ 121 := by
  intro fuel
  induction fuel with
  | zero => intro e he; simpa [perplexity_wait_aux] using he
  | succ fuel ih =>
    intro e he
    rw [perplexity_wait_aux]
    by_cases h : e < 120
    · rw [if_pos h]
      cases poll e with
      | done => exact he
      | shortContent => exact ih (e + 2) (by omega)
      | noContainers => exact ih (e + 1) (by omega)
      | raised => exact ih (e + 1) (by omega)
    · rw [if_neg h]; exact he

/-- C2 counterexample: a Perplexity run whose completion condition never holds
(containers appear from second 1 but the content stays short forever) returns at
elapsed time 121, strictly past the 120-second ceiling — so the claimed "at most
120 seconds" bound is false for the Perplexity adapter. -/
theorem perplexity_wait_exceeds_ceiling :
    perplexity_wait_for_response
        (fun t => if t = 0 then PerplexityPoll.noContainers else PerplexityPoll.shortContent)
      = 121 ∧
    ¬ (121 ≤ 120) := by
  constructor
  · decide
  · decide

/-- C2 (amended): every adapter's wait loop returns even when the completion
condition never holds — ChatGPT and Gemini within the 120-second ceiling,
Perplexity within one 2-second poll past it (at most 121 seconds) — and the query
tail then proceeds unconditionally to _extract_response: the extracted result is
exactly the extraction function's output and does not depend on the completion
signal at all. -/
theorem wait_bounded_and_extraction_proceeds (stopBtn : Nat → Bool)
    (gpoll : Nat → GeminiPoll) (ppoll ppoll2 : Nat → PerplexityPoll)
    (primary : String) (fallback : Option (List String)) :
    chatgpt_wait_for_response stopBtn ≤ 120 ∧
    gemini_wait_for_response gpoll ≤ 120 ∧
    perplexity_wait_for_response ppoll ≤ 121 ∧
    (chatgpt_query_tail stopBtn primary fallback).2 = chatgpt_extract_response primary fallback ∧
    (perplexity_query_tail ppoll primary fallback).2 =
      (perplexity_query_tail ppoll2 primary fallback).2 :=
  ⟨chatgpt_wait_aux_le stopBtn 120 0 (by omega),
   gemini_wait_aux_le gpoll 120 0 (by omega),
   perplexity_wait_aux_le ppoll 120 0 (by omega),
   rfl, rfl⟩

/-- C7 counterexample: the primary extraction is empty and the fallback finds one
assistant element whose own text is empty — ChatGPT's _extract_response returns
the empty string, not the sentinel "No response extracted", so the claim is false. -/
theorem chatgpt_empty_fallback_counterexample :
    chatgpt_extract_response "" (some [""]) = "" ∧
    ("" : String) ≠ "No response extracted" := by
  constructor
  · rfl
  · decide

/-- C7 (amended): when the primary extraction is blank the fallback over the
response region is used; the sentinel "No response extracted" is returned when the
fallback raises or finds no elements; a fallback that does find elements returns
the last element's text as-is for ChatGPT (even when that text is empty), while
Perplexity joins the non-blank texts and substitutes "No substantive response
extracted" when the joined, stripped result is shorter than 20 characters; the
empty-extraction case never raises, and a non-blank primary result is returned
unchanged. -/
theorem extract_response_fallback_spec (p : String) (f : Option (List String))
    (els : List String) :
    (pyStrip p.toList ≠ [] →
      chatgpt_extract_response p f = p ∧ perplexity_extract_response p f = p) ∧
    (pyStrip p.toList = [] →
      chatgpt_extract_response p none = "No response extracted" ∧
      chatgpt_extract_response p (some []) = "No response extracted" ∧
      perplexity_extract_response p none = "No response extracted" ∧
      perplexity_extract_response p (some []) = "No response extracted") ∧
    (pyStrip p.toList = [] →
      chatgpt_extract_response p (some els) = (els.getLast?).getD "No response extracted") ∧
    (pyStrip p.toList = [] → els ≠ [] →
      perplexity_extract_response p (some els) =
        (if (pyStrip (String.intercalate "\n"
            (els.filter (fun t => decide (pyStrip t.toList ≠ [])))).toList).length < 20 then
          "No substantive response extracted"
        else String.intercalate "\n" (els.filter (fun t => decide (pyStrip t.toList ≠ []))))) := by
  refine ⟨?_, ?_, ?_, ?_⟩
  · intro hp
    have hp2 : pyStrip p.data ≠ [] := hp
    constructor
    · simp [chatgpt_extract_response, hp2]
    · simp [perplexity_extract_response, hp2]
  · intro hp
    have hp2 : pyStrip p.data = [] := hp
    refine ⟨?_, ?_, ?_, ?_⟩ <;>
      simp [chatgpt_extract_response, perplexity_extract_response, hp2]
  · intro hp
    have hp2 : pyStrip p.data = [] := hp
    cases h : els.getLast? with
    | none => simp [chatgpt_extract_response, hp2, h]
    | some t => simp [chatgpt_extract_response, hp2, h]
  · intro hp hels
    have hp2 : pyStrip p.data = [] := hp
    have hemp : els.isEmpty = false := by
      cases els with
      | nil => exact absurd rfl hels
      | cons a l => rfl
    simp [perplexity_extract_response, hp2, hemp]

/-- C7 witness: a whitespace-only primary result with a raising fallback yields the
sentinel, and a non-empty fallback element list yields its last text. -/
theorem extract_response_fallback_witness :
    (pyStrip " ".toList = [] ∧ (["x", "y"] : List String) ≠ []) ∧
    chatgpt_extract_response " " none = "No response extracted" ∧
    chatgpt_extract_response " " (some ["x", "y"]) = "y" :=
  ⟨⟨by decide, by decide⟩,
   ((extract_response_fallback_spec " " none ["x", "y"]).2.1 (by decide)).1,
   (extract_response_fallback_spec " " none ["x", "y"]).2.2.1 (by decide)⟩

/-- C3 counterexample: a successful query whose capture thread has its full
5-second sleep remaining when cleanup runs (SCREENSHOT_INTERVAL = 5, so this
state is reachable): the 2-second join times out — the joinAttempt records the
thread as not exited — and the browser is quit while the thread is still alive,
so "joins it before terminating the browser process" is false. -/
theorem cleanup_join_timeout_counterexample :
    (query_with_fresh_browser true (Except.ok "answer") (some 5) true).2 =
      [CleanupEvent.setStopFlag, CleanupEvent.joinAttempt false,
        CleanupEvent.quitBrowser] ∧
    SCREENSHOT_INTERVAL = 5 ∧ ¬ (5 ≤ JOIN_TIMEOUT) := by
  refine ⟨rfl, rfl, by decide⟩

/-- C3 (amended): query_with_fresh_browser executes cleanup on every exit path —
successful result, initialization failure, and a query exception — before the call
returns or the exception propagates; cleanup signals the screenshot thread to stop
and attempts to join it with a 2-second timeout before quitting the browser.  The
join is only an attempt: it sees the thread exited exactly when the thread's next
stop-flag check falls within the timeout, and since the capture thread sleeps 5
seconds between screenshots, the timeout can expire and the browser is then
terminated while the thread is still alive. -/
theorem fresh_browser_cleanup_spec (initOk : Bool)
    (queryRes : Except String String) (thread : Option Nat) (hasDriver : Bool)
    (r : Nat) :
    (query_with_fresh_browser initOk queryRes thread hasDriver).2 =
      cleanupEvents thread hasDriver ∧
    (cleanupEvents thread hasDriver).head? = some CleanupEvent.setStopFlag ∧
    cleanupEvents (some r) true =
      [CleanupEvent.setStopFlag, CleanupEvent.joinAttempt (decide (r ≤ JOIN_TIMEOUT)),
        CleanupEvent.quitBrowser] ∧
    (query_with_fresh_browser initOk queryRes thread hasDriver).1 =
      (if initOk then
        (match queryRes with
          | Except.ok res => SessionExit.ok res
          | Except.error e => SessionExit.raised e)
       else SessionExit.raised "Failed to initialize browser") := by
  cases initOk <;> cases queryRes <;> cases thread <;> cases hasDriver <;>
    exact ⟨rfl, rfl, rfl, rfl⟩

/-- C1: within one batch, every item is attempted even when earlier items raise,
and the error counter is incremented exactly once per item whose processing raises
an exception (the guarded early returns of process_prompt return False without
touching the counter). -/
theorem worker_batch_attempts_all_and_counts_errors (st : WorkerState)
    (batch : List PromptOutcome) (h : st.is_running = true) :
    (process_batch st batch).2 = batch.length ∧
    (process_batch st batch).1.errors =
      st.errors + batch.countP (fun o => decide (o = PromptOutcome.raiseExc)) := by
  induction batch generalizing st with
  | nil => simp [process_batch]
  | cons o rest ih =>
    have hrun : (process_prompt st o).1.is_running = true := by
      cases o <;> simpa [process_prompt] using h
    obtain ⟨ih1, ih2⟩ := ih (process_prompt st o).1 hrun
    have hnot : ¬ (st.is_running = false) := by simp [h]
    constructor
    · simp only [process_batch, if_neg hnot, List.length_cons]
      rw [ih1]
    · simp only [process_batch, if_neg hnot]
      rw [ih2, List.countP_cons]
      cases o <;> simp [process_prompt] <;> omega

/-- C1 witness: a batch with a success, two exceptions and an early failure — all
four items attempted, errors up by exactly two. -/
theorem worker_batch_witness :
    (⟨0, 0, true⟩ : WorkerState).is_running = true ∧
    (process_batch ⟨0, 0, true⟩
        [PromptOutcome.success, PromptOutcome.raiseExc, PromptOutcome.earlyFail,
          PromptOutcome.raiseExc]).2 =
      [PromptOutcome.success, PromptOutcome.raiseExc, PromptOutcome.earlyFail,
        PromptOutcome.raiseExc].length ∧
    (process_batch ⟨0, 0, true⟩
        [PromptOutcome.success, PromptOutcome.raiseExc, PromptOutcome.earlyFail,
          PromptOutcome.raiseExc]).1.errors =
      (⟨0, 0, true⟩ : WorkerState).errors +
        [PromptOutcome.success, PromptOutcome.raiseExc, PromptOutcome.earlyFail,
          PromptOutcome.raiseExc].countP (fun o => decide (o = PromptOutcome.raiseExc)) :=
  ⟨rfl,
   (worker_batch_attempts_all_and_counts_errors ⟨0, 0, true⟩
      [PromptOutcome.success, PromptOutcome.raiseExc, PromptOutcome.earlyFail,
        PromptOutcome.raiseExc] rfl).1,
   (worker_batch_attempts_all_and_counts_errors ⟨0, 0, true⟩
      [PromptOutcome.success, PromptOutcome.raiseExc, PromptOutcome.earlyFail,
        PromptOutcome.raiseExc] rfl).2⟩

/-- With a non-empty batch at every iteration and a truthy cap n, the loop breaks at
iteration n exactly. -/
theorem run_iterations_busy (n : Nat) :
    ∀ fuel it, it < n → n ≤ it + fuel →
      run_iterations (fun _ => true) (some n) fuel it = some n := by
  intro fuel
  induction fuel with
  | zero => intro it h1 h2; omega
  | succ fuel ih =>
    intro it h1 h2
    have hne : n ≠ 0 := by omega
    by_cases hge : it + 1 ≥ n
    · have hn : it + 1 = n := by omega
      simp [run_iterations, maxIterTruthy, hne, hge, hn]
    · have hlt : it + 1 < n := by omega
      have hrec := ih (it + 1) hlt (by omega)
      simp [run_iterations, maxIterTruthy, hne, hge, hrec, Nat.not_le.mpr hlt]

/-- With an empty batch at every iteration, the cap check is never reached and the
loop never breaks. -/
theorem run_iterations_empty (n : Nat) :
    ∀ fuel it, run_iterations (fun _ => false) (some n) fuel it = none := by
  intro fuel
  induction fuel with
  | zero => intro it; rfl
  | succ fuel ih =>
    intro it
    rw [run_iterations]
    simpa using ih (it + 1)

/-- C9 counterexample: with max_iterations = 1, a first iteration that finds an
empty queue skips the cap check, so the loop stops only after its second
iteration — the claimed "at most n iterations" bound is false. -/
theorem run_max_iterations_counterexample :
    run_iterations (fun i => decide (i ≠ 1)) (some 1) 5 0 = some 2 ∧ ¬ (2 ≤ 1) := by
  constructor
  · decide
  · decide

/-- C9 (amended): with max_iterations = n ≥ 1 the loop stops after exactly n
iterations provided every iteration finds pending prompts; an iteration that finds
an empty queue continues without reaching the cap check, so empty iterations can
push the total past n, and with a perpetually empty queue the loop never stops on
its own. -/
theorem run_max_iterations_cap (n fuel : Nat) (h1 : 1 ≤ n) (h2 : n ≤ fuel) :
    run_iterations (fun _ => true) (some n) fuel 0 = some n ∧
    run_iterations (fun _ => false) (some n) fuel 0 = none :=
  ⟨run_iterations_busy n fuel 0 (by omega) (by omega),
   run_iterations_empty n fuel 0⟩

/-- C9 witness: cap 2 with work always available — the loop stops at iteration 2. -/
theorem run_max_iterations_cap_witness :
    (1 ≤ 2 ∧ 2 ≤ 3) ∧
    run_iterations (fun _ => true) (some 2) 3 0 = some 2 ∧
    run_iterations (fun _ => false) (some 2) 3 0 = none :=
  ⟨⟨by decide, by decide⟩,
   (run_max_iterations_cap 2 3 (by decide) (by decide)).1,
   (run_max_iterations_cap 2 3 (by decide) (by decide)).2⟩

end VisiTrack
